import Mathlib

/-!
Verification of the animation-keyframe synthesis and document-assembly core of
the svg-to-animated-lottie converter.

The embedding translates the Python sources:
  - animations.py: the animation variant family and its factory/registry;
  - svg_to_lottie.py: create_basic_animation, create_complex_animation and the
    pure core of svg_to_animated_lottie (decoding, temp files and the final
    file write are I/O and stay outside; the external importer and the external
    serializer of the lottie library enter as explicit inputs).

Machine numbers: every frame index and channel value written by the sources is
an integer literal (or an integer product), so channels carry Int. The only
non-integer quantity, the fill-scale factor, is a Python float modelled as an
exact rational; no claim below depends on float rounding.
-/

set_option autoImplicit false

/-- A scalar animatable channel (opacity, rotation): a static value plus a
keyframe schedule. The lottie add_keyframe call is modelled as an append;
every schedule written by the sources appends frames in nondecreasing order. -/
structure ScalarChannel where
  value : Int
  keyframes : List (Int × Int)
deriving DecidableEq, Repr

/-- A 2-D animatable channel (position, scale, anchor point): a static value
plus a keyframe schedule of (frame, (x, y)) entries. The static value is kept
as a rational because svg_to_animated_lottie stores the float fill-scale
factor there. -/
structure PointChannel where
  value : ℚ × ℚ
  keyframes : List (Int × (Int × Int))
deriving DecidableEq, Repr

def ScalarChannel.add_keyframe (c : ScalarChannel) (frame : Int) (v : Int) : ScalarChannel :=
  { c with keyframes := c.keyframes ++ [(frame, v)] }

def PointChannel.add_keyframe (c : PointChannel) (frame : Int) (v : Int × Int) : PointChannel :=
  { c with keyframes := c.keyframes ++ [(frame, v)] }

/-- The transform attached to a layer: the five animatable channels named by
the sources (transform.opacity, .rotation, .scale, .position, .anchor_point). -/
structure Transform where
  opacity : ScalarChannel
  rotation : ScalarChannel
  scale : PointChannel
  position : PointChannel
  anchor_point : PointChannel
deriving DecidableEq, Repr

/-- A layer of the imported scene. The transform is optional because the
sources guard every access with hasattr(layer, transform-attribute). The
shapes list is modelled only up to emptiness: the bounds pass of
svg_to_animated_lottie tests nothing but hasattr(layer, shapes-attribute)
and truthiness of the list. -/
structure Layer where
  transform : Option Transform
  shapes : List Unit
deriving DecidableEq, Repr

/-- The lottie objects.Animation fields the core reads or writes. -/
structure Animation where
  layers : List Layer
  frame_rate : Int
  width : Int
  height : Int
  in_point : Int
  out_point : Int
deriving DecidableEq, Repr

/-! ## The variant family (animations.py) -/

/-- FadeInAnimation.apply from animations.py. -/
def FadeInAnimation.apply (duration : Int) (t : Transform) (animation_size : Int × Int) :
    Transform :=
  let t := { t with opacity := (t.opacity.add_keyframe 0 0).add_keyframe 30 100 }
  let sc := ((t.scale.add_keyframe 0 (100, 100)).add_keyframe 30 (100, 100)).add_keyframe duration (100, 100)
  { t with scale := sc }

/-- ScaleUpAnimation.apply from animations.py: scale 50 percent at frame 0,
100 percent at frame 30. -/
def ScaleUpAnimation.apply (duration : Int) (t : Transform) (animation_size : Int × Int) :
    Transform :=
  { t with scale := (t.scale.add_keyframe 0 (50, 50)).add_keyframe 30 (100, 100) }

/-- BounceAnimation.apply from animations.py: the six-entry scale schedule
followed by one closing keyframe at the variant duration. -/
def BounceAnimation.apply (duration : Int) (t : Transform) (animation_size : Int × Int) :
    Transform :=
  let keyframes : List (Int × (Int × Int)) :=
    [(0, (90, 90)), (15, (100, 100)), (30, (90, 90)),
     (45, (100, 100)), (60, (90, 90)), (75, (100, 100))]
  let t := keyframes.foldl (fun acc kf => { acc with scale := acc.scale.add_keyframe kf.1 kf.2 }) t
  { t with scale := t.scale.add_keyframe duration (100, 100) }

/-- BottomToCenterAnimation.apply from animations.py: position slides from
(0, height * 2) at frame 0 to (0, 0) at frame 30 while scale holds 100. -/
def BottomToCenterAnimation.apply (duration : Int) (t : Transform)
    (animation_size : Int × Int) : Transform :=
  let height := animation_size.2
  let t := { t with position :=
      (t.position.add_keyframe 0 (0, height * 2)).add_keyframe 30 (0, 0) }
  { t with scale := (t.scale.add_keyframe 0 (100, 100)).add_keyframe 30 (100, 100) }

/-- The variant values produced by the factory; each carries its duration,
which is the only state a variant has. -/
inductive BaseAnimation where
  | fadeIn (duration : Int)
  | scaleUp (duration : Int)
  | bounce (duration : Int)
  | bottomToCenter (duration : Int)
deriving DecidableEq, Repr

/-- First-match lookup in an association list; Python dicts have unique keys,
so this agrees with dict indexing on every input the sources build. -/
def lookupKey {α : Type} : List (String × α) → String → Option α
  | [], _ => none
  | e :: rest, k => if e.1 == k then some e.2 else lookupKey rest k

/-- AnimationFactory._animations from animations.py, in registration order. -/
def AnimationFactory.animations : List (String × (Int → BaseAnimation)) :=
  [("fade_in", BaseAnimation.fadeIn),
   ("scale_up", BaseAnimation.scaleUp),
   ("bounce", BaseAnimation.bounce),
   ("bottom_to_center", BaseAnimation.bottomToCenter)]

/-- AnimationFactory.get_available_types from animations.py. -/
def AnimationFactory.get_available_types : List String :=
  AnimationFactory.animations.map (fun e => e.1)

/-- The single-quote character, used by the factory error message. -/
def squote : String := String.mk [Char.ofNat 39]

/-- The tail of the factory error message: quote, then the joined list of the
registered names, exactly as ", ".join(cls._animations.keys()) renders it. -/
def availableSuffix : String :=
  squote ++ ". Available: " ++ String.intercalate ", " AnimationFactory.get_available_types

/-- The message of the ValueError raised by AnimationFactory.create_animation
for an unknown animation type. -/
def unknownTypeMessage (animation_type : String) : String :=
  "Unknown animation type " ++ squote ++ animation_type ++ availableSuffix

/-- AnimationFactory.create_animation from animations.py: a membership test on
the registry followed by construction, translated to one lookup. -/
def AnimationFactory.create_animation (animation_type : String) (duration : Int) :
    Except String BaseAnimation :=
  match lookupKey AnimationFactory.animations animation_type with
  | none => Except.error (unknownTypeMessage animation_type)
  | some ctor => Except.ok (ctor duration)

/-- Modelled from the spec: the scene-transform applier resolves the canvas
size it hands to a variant as the document width/height when both are set and
nonzero, else the fixed 512 by 512 default (spec 4.4). The applier itself is
exercised by demo.py but its implementation is not among the sources. -/
def resolveCanvasSize (doc_width doc_height : Option Int) : Int × Int :=
  match doc_width, doc_height with
  | some w, some h => if w ≠ 0 ∧ h ≠ 0 then (w, h) else (512, 512)
  | _, _ => (512, 512)

/-! ## create_basic_animation (svg_to_lottie.py) -/

/-- The per-layer body of create_basic_animation: the if/elif chain over the
animation type, writing directly into the transform channels. An unmatched
type writes nothing. -/
def applyBasicToTransform (animation_type : String) (duration : Int) (t : Transform) :
    Transform :=
  if animation_type == "fade_in" then
    { t with opacity := (t.opacity.add_keyframe 0 0).add_keyframe 30 100 }
  else if animation_type == "scale_up" then
    { t with scale := (t.scale.add_keyframe 0 (10, 10)).add_keyframe 30 (100, 100) }
  else if animation_type == "rotate" then
    { t with rotation := (t.rotation.add_keyframe 0 0).add_keyframe duration 360 }
  else if animation_type == "bounce" then
    { t with scale :=
        ((((t.scale.add_keyframe 0 (100, 100)).add_keyframe 15 (120, 120)).add_keyframe
            30 (100, 100)).add_keyframe 45 (110, 110)).add_keyframe 60 (100, 100) }
  else t

/-- create_basic_animation from svg_to_lottie.py: early return on an empty
layer list, otherwise out_point is set to the fixed duration 60 and every
layer exposing a transform receives the per-type schedule. -/
def create_basic_animation (a : Animation) (animation_type : String) : Animation :=
  if a.layers.isEmpty then a
  else
    let duration : Int := 60
    let a := { a with out_point := duration }
    { a with layers := a.layers.map (fun l =>
        match l.transform with
        | some t => { l with transform := some (applyBasicToTransform animation_type duration t) }
        | none => l) }

/-! ## create_complex_animation (svg_to_lottie.py) -/

/-- One sub-effect parameter map. Python spells the second field "end", a Lean
keyword, so it is named stop here. start and stop are accessed by required
indexing in the source; degrees, amplitude and frequency through .get with
defaults, hence optional. -/
structure SubEffect where
  start : Int
  stop : Int
  degrees : Option Int
  amplitude : Option Int
  frequency : Option Int
deriving DecidableEq, Repr

/-- A value of the heterogeneous effects dict: the duration entry is a number,
the sub-effect entries are parameter maps. -/
inductive EffectVal where
  | num (n : Int)
  | sub (e : SubEffect)
deriving DecidableEq, Repr

/-- effects.get with default 90 for the duration entry. A parameter map stored
under the duration key would flow into out_point untyped in Python; that
ill-typed corner is unreachable from the claims and falls back to the default
here. -/
def effects_get_duration (effects : List (String × EffectVal)) : Int :=
  match lookupKey effects "duration" with
  | some (EffectVal.num n) => n
  | some (EffectVal.sub _) => 90
  | none => 90

/-- Key-presence test plus field access for one sub-effect. A numeric value
stored under a sub-effect key would fail at field access in Python; that
ill-typed corner is unreachable from the claims and reads as absent here. -/
def lookup_sub_effect (effects : List (String × EffectVal)) (k : String) : Option SubEffect :=
  match lookupKey effects k with
  | some (EffectVal.sub e) => some e
  | _ => none

/-- Modelled from the spec: the shake utility lives in the external lottie
library; spec 4.2 fixes only an amplitude/frequency-parameterized oscillation
confined to the caller range with a fixed loop count. No claim depends on the
exact sample schedule; this definition fixes one deterministic schedule with
those parameters. -/
def shake_keyframes (amplitude frequency start stop loops : Int) :
    List (Int × (Int × Int)) :=
  let samples := frequency.toNat * loops.toNat * 2
  (List.range (samples + 1)).map (fun i =>
    let frame := start + Int.fdiv ((stop - start) * (i : Int)) ((samples : Int) + 1)
    let offs := if i % 2 == 0 then amplitude else -amplitude
    (frame, (offs, offs)))

/-- The default effects dict built by create_complex_animation when the caller
passes none. -/
def defaultComplexEffects : List (String × EffectVal) :=
  [("duration", EffectVal.num 90),
   ("fade_in", EffectVal.sub ⟨0, 30, none, none, none⟩),
   ("scale_pulse", EffectVal.sub ⟨30, 60, none, none, none⟩),
   ("rotation", EffectVal.sub ⟨60, 90, some 360, none, none⟩)]

/-- The per-layer body of create_complex_animation: the four recognized
sub-effects in source order; any other key of the effects dict is never
consulted. The scale-pulse midpoint uses Python floor division. -/
def applyComplexToTransform (effects : List (String × EffectVal)) (t : Transform) :
    Transform :=
  let t := match lookup_sub_effect effects "fade_in" with
    | some fade =>
        { t with opacity := (t.opacity.add_keyframe fade.start 0).add_keyframe fade.stop 100 }
    | none => t
  let t := match lookup_sub_effect effects "scale_pulse" with
    | some pulse =>
        let mid_point := Int.fdiv (pulse.start + pulse.stop) 2
        { t with scale :=
            ((t.scale.add_keyframe pulse.start (100, 100)).add_keyframe
                mid_point (130, 130)).add_keyframe pulse.stop (100, 100) }
    | none => t
  let t := match lookup_sub_effect effects "rotation" with
    | some rot =>
        { t with rotation :=
            (t.rotation.add_keyframe rot.start 0).add_keyframe rot.stop (rot.degrees.getD 360) }
    | none => t
  match lookup_sub_effect effects "shake" with
  | some s =>
      let shaken := t.position.keyframes ++ shake_keyframes (s.amplitude.getD 10) (s.frequency.getD 2) s.start s.stop 5
      { t with position := { t.position with keyframes := shaken } }
  | none => t

/-- create_complex_animation from svg_to_lottie.py. Unlike the basic path it
has no empty-layer early return; out_point is always set. -/
def create_complex_animation (a : Animation) (effects0 : Option (List (String × EffectVal))) :
    Animation :=
  let effects := match effects0 with
    | some e => e
    | none => defaultComplexEffects
  let duration := effects_get_duration effects
  let a := { a with out_point := duration }
  { a with layers := a.layers.map (fun l =>
      match l.transform with
      | some t => { l with transform := some (applyComplexToTransform effects t) }
      | none => l) }

/-- The sub-effect keys create_complex_animation consults, plus the duration
key it reads with a default. -/
def recognizedComplexKeys : List String :=
  ["duration", "fade_in", "scale_pulse", "rotation", "shake"]

/-! ## Document assembly (svg_to_animated_lottie, svg_to_lottie.py) -/

/-- JSON-compatible values, the shape of a to_dict serialization. -/
inductive JVal where
  | num (n : Int)
  | str (s : String)
  | arr (items : List JVal)
  | obj (fields : List (String × JVal))

/-- Python dict assignment d[k] = v on an ordered dict: replace in place when
the key exists, append otherwise. -/
def dictSet {α : Type} : List (String × α) → String → α → List (String × α)
  | [], k, v => [(k, v)]
  | e :: rest, k, v => if e.1 == k then (k, v) :: rest else e :: dictSet rest k v

/-- Python dict.update: sequential assignment of every entry of the update. -/
def dictUpdate (d upd : List (String × JVal)) : List (String × JVal) :=
  upd.foldl (fun acc e => dictSet acc e.1 e.2) d

/-- The fixed-shape meta sub-object written by svg_to_animated_lottie. -/
def metaObj : JVal :=
  JVal.obj [("g", JVal.str "SVG to Lottie Converter"), ("a", JVal.str ""),
            ("k", JVal.str ""), ("d", JVal.str ""), ("tc", JVal.str "")]

/-- The lottie_dict.update call of svg_to_animated_lottie: the five top-level
wire keys plus the meta block, written over the base serialization. -/
def assemble_document (base : List (String × JVal)) (target_width target_height
    out_point fps : Int) : List (String × JVal) :=
  dictUpdate base
    [("w", JVal.num target_width), ("h", JVal.num target_height),
     ("ip", JVal.num 0), ("op", JVal.num out_point), ("fr", JVal.num fps),
     ("meta", metaObj)]

/-- The per-layer post-processing of svg_to_animated_lottie: re-center the
serialized static position under ks.p.k when that path exists, then stamp the
layer w and h. Layer serializations are JSON objects; a non-object entry is
left alone (Python would fail on it, and the external serializer never emits
one). -/
def postProcessLayer (target_width target_height : Int) : JVal → JVal
  | JVal.obj fields =>
      let fields :=
        (match lookupKey fields "ks" with
         | some (JVal.obj ks) =>
             (match lookupKey ks "p" with
              | some (JVal.obj p) =>
                  if (lookupKey p "k").isSome then
                    dictSet fields "ks" (JVal.obj (dictSet ks "p" (JVal.obj
                      (dictSet p "k" (JVal.arr
                        [JVal.num (Int.fdiv target_width 2),
                         JVal.num (Int.fdiv target_height 2)])))))
                  else fields
              | _ => fields)
         | _ => fields)
      JVal.obj (dictSet (dictSet fields "w" (JVal.num target_width))
        "h" (JVal.num target_height))
  | v => v

/-- The layers loop of svg_to_animated_lottie, guarded by key presence. -/
def postProcessLayers (d : List (String × JVal)) (target_width target_height : Int) :
    List (String × JVal) :=
  match lookupKey d "layers" with
  | some (JVal.arr ls) =>
      dictSet d "layers" (JVal.arr (ls.map (postProcessLayer target_width target_height)))
  | _ => d

/-- The full assembly: the five-key update followed by layer post-processing;
this is the dict svg_to_animated_lottie serializes to the output file. -/
def assembleOutput (base : List (String × JVal)) (target_width target_height
    out_point fps : Int) : List (String × JVal) :=
  postProcessLayers (assemble_document base target_width target_height out_point fps)
    target_width target_height

/-! ## The conversion core (svg_to_animated_lottie, svg_to_lottie.py) -/

/-- Target dimension resolution of svg_to_animated_lottie: the explicitly
passed size when one is given, else the fixed 512 default. The decoded markup
is in scope in the source at this point but never consulted. -/
def resolve_target_dimensions (svg_content : String) (size : Option (Int × Int)) :
    Int × Int :=
  match size with
  | some s => (s.1, s.2)
  | none => (512, 512)

/-- The first bounds pass: a min/max fold started from plus and minus
infinity (modelled by none); every shape-bearing layer contributes the fixed
(0,0)-(100,100) estimate, and the no-shape fallback is the same region. -/
def content_bounds (layers : List Layer) : ℚ × ℚ × ℚ × ℚ :=
  let step := fun (acc : Option (ℚ × ℚ × ℚ × ℚ)) (l : Layer) =>
    if l.shapes.isEmpty then acc
    else match acc with
      | none => some (min 0 0, min 0 0, max (-1) 100, max (-1) 100)
      | some (a, b, c, d) => some (min a 0, min b 0, max c 100, max d 100)
  match layers.foldl step none with
  | some b => b
  | none => (0, 0, 100, 100)

/-- The fill-scale computation over the content bounds, floats as exact
rationals: 90 percent of the target over the content extent, the smaller of
the two axes, times 100. -/
def fill_scale (target_width target_height : Int) (bounds : ℚ × ℚ × ℚ × ℚ) : ℚ :=
  let (min_x, min_y, max_x, max_y) := bounds
  let content_width := max_x - min_x
  let content_height := max_y - min_y
  let scale_x : ℚ := if content_width > 0 then (target_width * (9 / 10 : ℚ)) / content_width else 1
  let scale_y : ℚ := if content_height > 0 then (target_height * (9 / 10 : ℚ)) / content_height else 1
  min scale_x scale_y * 100

/-- The pure core of svg_to_animated_lottie. Inputs that belong to external
collaborators enter as arguments: imported is the scene the external SVG
importer produced from the decoded markup, and to_dict is the external
serialization method of the lottie library (spec 6). Base64 decoding, temp
files and the final file write are I/O outside the core. The function sets the
frame rate, resolves and stamps the target dimensions, runs the bounds and
centering passes, applies the requested animation, and assembles the output
dict. It performs no validation of any numeric input. -/
def svg_to_animated_lottie (to_dict : Animation → List (String × JVal))
    (svg_content : String) (imported : Animation) (animation_type : String)
    (custom_effects : Option (List (String × EffectVal))) (fps : Int)
    (size : Option (Int × Int)) : List (String × JVal) :=
  let dims := resolve_target_dimensions svg_content size
  let a := { imported with frame_rate := fps, width := dims.1, height := dims.2 }
  let bounds := content_bounds a.layers
  let s := fill_scale dims.1 dims.2 bounds
  let a := { a with layers := a.layers.map (fun l =>
      match l.transform with
      | some t => { l with transform := some { t with
          position := { t.position with value := ((Int.fdiv dims.1 2 : Int), (Int.fdiv dims.2 2 : Int)) },
          scale := { t.scale with value := (s, s) },
          anchor_point := { t.anchor_point with value := ((50 : ℚ), (50 : ℚ)) } } }
      | none => l) }
  let a := if animation_type == "complex"
    then create_complex_animation a custom_effects
    else create_basic_animation a animation_type
  assembleOutput (to_dict a) dims.1 dims.2 a.out_point fps

/-! ## Sample data for closed instantiations -/

/-- A transform with empty schedules and zero static values. -/
def emptyTransform : Transform :=
  ⟨⟨0, []⟩, ⟨0, []⟩, ⟨(0, 0), []⟩, ⟨(0, 0), []⟩, ⟨(0, 0), []⟩⟩

/-- A one-shape layer exposing a transform. -/
def sampleLayer : Layer := ⟨some emptyTransform, [()]⟩

/-- A document with no layers. -/
def sampleEmptyAnimation : Animation := ⟨[], 30, 512, 512, 0, 0⟩

/-- A one-layer document. -/
def sampleOneLayerAnimation : Animation := ⟨[sampleLayer], 30, 512, 512, 0, 0⟩

/-- A one-layer scene as the external importer would hand it over. -/
def sampleImported : Animation := ⟨[sampleLayer], 0, 0, 0, 0, 0⟩

/-- Modelled from the spec: the serialization a layer contributes to the
document mapping (spec 6) — the transform under ks with the static position
under p.k. Only the shape the assembler post-processing inspects is kept. -/
def Layer.to_dict (l : Layer) : JVal :=
  match l.transform with
  | some t => JVal.obj [("ks", JVal.obj [("p", JVal.obj [("k", JVal.arr
      [JVal.num (Int.floor t.position.value.1), JVal.num (Int.floor t.position.value.2)])])])]
  | none => JVal.obj []

/-- Modelled from the spec: the scene document serialization method of the
external lottie library (spec 6), a JSON mapping of the document fields. -/
def Animation.to_dict (a : Animation) : List (String × JVal) :=
  [("fr", JVal.num a.frame_rate), ("ip", JVal.num a.in_point),
   ("op", JVal.num a.out_point), ("w", JVal.num a.width), ("h", JVal.num a.height),
   ("layers", JVal.arr (a.layers.map Layer.to_dict))]

/-- The markup of the dimension-extraction test, built without literal quote
characters: an svg tag with viewBox 0 0 100 200. -/
def viewBoxMarkup : String := "<svg viewBox=" ++ squote ++ "0 0 100 200" ++ squote ++ "/>"

/-- Whether the first list is an initial segment of the second. -/
def startsList : List Char → List Char → Bool
  | [], _ => true
  | _ :: _, [] => false
  | a :: rest1, b :: rest2 => a == b && startsList rest1 rest2

/-- Whether the first list occurs contiguously inside the second; used to
state that an error message enumerates a name. -/
def occursList : List Char → List Char → Bool
  | sub, [] => sub.isEmpty
  | sub, c :: rest => startsList sub (c :: rest) || occursList sub rest

/-! ## Helper lemmas -/

theorem strData_append : ∀ s t : String, (s ++ t).data = s.data ++ t.data
  | ⟨_⟩, ⟨_⟩ => rfl

theorem occursList_append_right (sub l2 : List Char) (h : occursList sub l2 = true) :
    ∀ l1 : List Char, occursList sub (l1 ++ l2) = true
  | [] => h
  | c :: l1 => by
    rw [List.cons_append]
    show (startsList sub (c :: (l1 ++ l2)) || occursList sub (l1 ++ l2)) = true
    rw [occursList_append_right sub l2 h l1, Bool.or_true]

theorem lookupKey_eq_none_of_not_mem {α : Type} :
    ∀ (l : List (String × α)) (k : String), k ∉ l.map (fun e => e.1) → lookupKey l k = none
  | [], _, _ => rfl
  | e :: rest, k, h => by
    rw [List.map_cons] at h
    have h1 : k ≠ e.1 := fun he => h (he ▸ List.mem_cons_self _ _)
    have h2 : k ∉ rest.map (fun e => e.1) := fun hm => h (List.mem_cons_of_mem _ hm)
    have hb : (e.1 == k) = false := beq_eq_false_iff_ne.mpr (Ne.symm h1)
    simp [lookupKey, hb, lookupKey_eq_none_of_not_mem rest k h2]

theorem lookupKey_dictSet_self {α : Type} (k : String) (v : α) :
    ∀ d : List (String × α), lookupKey (dictSet d k v) k = some v
  | [] => by simp [dictSet, lookupKey]
  | e :: rest => by
    cases h : e.1 == k with
    | true => simp [dictSet, h, lookupKey]
    | false => simp [dictSet, h, lookupKey, lookupKey_dictSet_self k v rest]

theorem lookupKey_dictSet_ne {α : Type} (k k2 : String) (v : α) (hne : k2 ≠ k) :
    ∀ d : List (String × α), lookupKey (dictSet d k v) k2 = lookupKey d k2
  | [] => by
    have hb : (k == k2) = false := beq_eq_false_iff_ne.mpr (Ne.symm hne)
    simp [dictSet, lookupKey, hb]
  | e :: rest => by
    have hb : (k == k2) = false := beq_eq_false_iff_ne.mpr (Ne.symm hne)
    cases h : e.1 == k with
    | true =>
      have he : e.1 = k := eq_of_beq h
      have hb2 : (e.1 == k2) = false := beq_eq_false_iff_ne.mpr (he ▸ Ne.symm hne)
      simp [dictSet, h, lookupKey, hb, hb2]
    | false => simp [dictSet, h, lookupKey, lookupKey_dictSet_ne k k2 v hne rest]

theorem lookupKey_postProcessLayers (d : List (String × JVal)) (tw th : Int)
    (k : String) (hk : k ≠ "layers") :
    lookupKey (postProcessLayers d tw th) k = lookupKey d k := by
  unfold postProcessLayers
  cases hL : lookupKey d "layers" with
  | none => rfl
  | some v =>
    cases v with
    | arr ls => exact lookupKey_dictSet_ne "layers" k _ hk d
    | num n => rfl
    | str s => rfl
    | obj fs => rfl

theorem lookupKey_filter_keys {α : Type} (p : String → Bool) (k : String)
    (hk : p k = true) :
    ∀ l : List (String × α),
      lookupKey (l.filter (fun e => p e.1)) k = lookupKey l k
  | [] => rfl
  | e :: rest => by
    cases hp : p e.1 with
    | true =>
      cases hq : e.1 == k with
      | true => simp [List.filter_cons, hp, lookupKey, hq]
      | false => simp [List.filter_cons, hp, lookupKey, hq, lookupKey_filter_keys p k hk rest]
    | false =>
      have hne : (e.1 == k) = false := by
        cases hq : e.1 == k with
        | true =>
          have he : e.1 = k := eq_of_beq hq
          rw [he, hk] at hp
          exact absurd hp (by simp)
        | false => rfl
      simp [List.filter_cons, hp, lookupKey, hne, lookupKey_filter_keys p k hk rest]

/-! ## Claim theorems -/

/-- Claim C1: for every base serialization produced by the external to_dict,
the assembled output document has w equal to the resolved target width, h the
resolved target height, ip equal to 0, op equal to the out-point and fr equal
to the passed frame rate, and carries the fixed-shape meta sub-object —
regardless of, and overwriting, any pre-existing values under those keys in
the base serialization. -/
theorem assembler_overrides_top_level_keys (base : List (String × JVal))
    (tw th op fps : Int) :
    lookupKey (assembleOutput base tw th op fps) "w" = some (JVal.num tw) ∧
    lookupKey (assembleOutput base tw th op fps) "h" = some (JVal.num th) ∧
    lookupKey (assembleOutput base tw th op fps) "ip" = some (JVal.num 0) ∧
    lookupKey (assembleOutput base tw th op fps) "op" = some (JVal.num op) ∧
    lookupKey (assembleOutput base tw th op fps) "fr" = some (JVal.num fps) ∧
    lookupKey (assembleOutput base tw th op fps) "meta" = some metaObj := by
  have hD : ∀ k : String, k ≠ "layers" →
      lookupKey (assembleOutput base tw th op fps) k =
      lookupKey (dictSet (dictSet (dictSet (dictSet (dictSet (dictSet base
        "w" (JVal.num tw)) "h" (JVal.num th)) "ip" (JVal.num 0)) "op" (JVal.num op))
        "fr" (JVal.num fps)) "meta" metaObj) k :=
    fun k hk => lookupKey_postProcessLayers _ tw th k hk
  refine ⟨?_, ?_, ?_, ?_, ?_, ?_⟩
  · rw [hD "w" (by decide),
        lookupKey_dictSet_ne "meta" "w" _ (by decide),
        lookupKey_dictSet_ne "fr" "w" _ (by decide),
        lookupKey_dictSet_ne "op" "w" _ (by decide),
        lookupKey_dictSet_ne "ip" "w" _ (by decide),
        lookupKey_dictSet_ne "h" "w" _ (by decide),
        lookupKey_dictSet_self "w" _ _]
  · rw [hD "h" (by decide),
        lookupKey_dictSet_ne "meta" "h" _ (by decide),
        lookupKey_dictSet_ne "fr" "h" _ (by decide),
        lookupKey_dictSet_ne "op" "h" _ (by decide),
        lookupKey_dictSet_ne "ip" "h" _ (by decide),
        lookupKey_dictSet_self "h" _ _]
  · rw [hD "ip" (by decide),
        lookupKey_dictSet_ne "meta" "ip" _ (by decide),
        lookupKey_dictSet_ne "fr" "ip" _ (by decide),
        lookupKey_dictSet_ne "op" "ip" _ (by decide),
        lookupKey_dictSet_self "ip" _ _]
  · rw [hD "op" (by decide),
        lookupKey_dictSet_ne "meta" "op" _ (by decide),
        lookupKey_dictSet_ne "fr" "op" _ (by decide),
        lookupKey_dictSet_self "op" _ _]
  · rw [hD "fr" (by decide),
        lookupKey_dictSet_ne "meta" "fr" _ (by decide),
        lookupKey_dictSet_self "fr" _ _]
  · rw [hD "meta" (by decide), lookupKey_dictSet_self "meta" _ _]

/-- Claim C2: creating a variant by an unregistered name fails with the
unknown-type error whose message enumerates every registered name, while
every registered name yields a variant without error. -/
theorem factory_create_contract (name : String) (duration : Int) :
    (name ∉ AnimationFactory.get_available_types →
      AnimationFactory.create_animation name duration
          = Except.error (unknownTypeMessage name) ∧
      ∀ r ∈ AnimationFactory.get_available_types,
        occursList r.data (unknownTypeMessage name).data = true) ∧
    (name ∈ AnimationFactory.get_available_types →
      ∃ v, AnimationFactory.create_animation name duration = Except.ok v) := by
  constructor
  · intro h
    have hl : lookupKey AnimationFactory.animations name = none :=
      lookupKey_eq_none_of_not_mem _ _ h
    constructor
    · unfold AnimationFactory.create_animation
      rw [hl]
    · intro r hr
      have hmsg : (unknownTypeMessage name).data
          = ("Unknown animation type " ++ squote ++ name).data ++ availableSuffix.data :=
        strData_append _ _
      rw [hmsg]
      apply occursList_append_right
      simp only [AnimationFactory.get_available_types, AnimationFactory.animations,
        List.map_cons, List.map_nil, List.mem_cons, List.not_mem_nil, or_false] at hr
      rcases hr with rfl | rfl | rfl | rfl <;> decide
  · intro h
    simp only [AnimationFactory.get_available_types, AnimationFactory.animations,
      List.map_cons, List.map_nil, List.mem_cons, List.not_mem_nil, or_false] at h
    rcases h with rfl | rfl | rfl | rfl <;> exact ⟨_, rfl⟩

/-- Witness for claim C2 at the concrete inputs of the spec test: the
unregistered name nonexistent at duration 60, and the registered name
fade_in. -/
theorem factory_create_contract_check :
    (("nonexistent" : String) ∉ AnimationFactory.get_available_types) ∧
    AnimationFactory.create_animation "nonexistent" 60
        = Except.error (unknownTypeMessage "nonexistent") ∧
    (∀ r ∈ AnimationFactory.get_available_types,
      occursList r.data (unknownTypeMessage "nonexistent").data = true) ∧
    (("fade_in" : String) ∈ AnimationFactory.get_available_types) ∧
    (∃ v, AnimationFactory.create_animation "fade_in" 60 = Except.ok v) := by
  have h1 := (factory_create_contract "nonexistent" 60).1 (by decide)
  have h2 := (factory_create_contract "fade_in" 60).2 (by decide)
  exact ⟨by decide, h1.1, h1.2, by decide, h2⟩

/-- Claim C3: BottomToCenter writes exactly two position keyframes, at value
(0, height * 2) for frame 0 and (0, 0) for frame 30, and scale keyframes of
100 percent at frames 0 and 30, touching no other channel; with the canvas
falling back to the 512 by 512 default the position channel receives
(0, (0, 1024)) and (30, (0, 0)). -/
theorem bottom_to_center_schedule (duration : Int) (t : Transform) (w h : Int) :
    (BottomToCenterAnimation.apply duration t (w, h)).position.keyframes
        = t.position.keyframes ++ [(0, (0, h * 2)), (30, (0, 0))] ∧
    (BottomToCenterAnimation.apply duration t (w, h)).scale.keyframes
        = t.scale.keyframes ++ [(0, (100, 100)), (30, (100, 100))] ∧
    (BottomToCenterAnimation.apply duration t (w, h)).opacity = t.opacity ∧
    (BottomToCenterAnimation.apply duration t (w, h)).rotation = t.rotation ∧
    (BottomToCenterAnimation.apply duration t (w, h)).anchor_point = t.anchor_point ∧
    (BottomToCenterAnimation.apply duration t
        (resolveCanvasSize (some 0) (some 0))).position.keyframes
      = t.position.keyframes ++ [(0, (0, 1024)), (30, (0, 0))] := by
  cases t
  refine ⟨?_, ?_, ?_, ?_, ?_, ?_⟩ <;>
    simp [BottomToCenterAnimation.apply, PointChannel.add_keyframe, resolveCanvasSize,
      List.append_assoc]

/-- Claim C4 counterexample: on the create_basic_animation path the scale_up
schedule starts at 10 percent, not at the 50 percent the claim states for
every path. -/
theorem scale_up_basic_path_counterexample :
    (applyBasicToTransform "scale_up" 60 emptyTransform).scale.keyframes
        = [(0, (10, 10)), (30, (100, 100))] ∧
    ¬ (applyBasicToTransform "scale_up" 60 emptyTransform).scale.keyframes
        = [(0, (50, 50)), (30, (100, 100))] := by
  exact ⟨rfl, by decide⟩

/-- Claim C4 (amended): the ScaleUpAnimation variant writes exactly the two
scale keyframes 50 percent at frame 0 and 100 percent at frame 30 and touches
no other channel, for every duration and canvas size; the basic-path scale_up
branch instead writes 10 percent at frame 0 and 100 percent at frame 30,
equally touching no other channel. -/
theorem scale_up_schedules (duration : Int) (t : Transform) (animation_size : Int × Int) :
    ScaleUpAnimation.apply duration t animation_size
        = { t with scale := { t.scale with keyframes :=
            t.scale.keyframes ++ [(0, (50, 50)), (30, (100, 100))] } } ∧
    applyBasicToTransform "scale_up" duration t
        = { t with scale := { t.scale with keyframes :=
            t.scale.keyframes ++ [(0, (10, 10)), (30, (100, 100))] } } := by
  cases t with
  | mk op rot sc pos anc =>
    cases sc
    constructor
    · simp [ScaleUpAnimation.apply, PointChannel.add_keyframe, List.append_assoc]
    · simp [applyBasicToTransform, PointChannel.add_keyframe, List.append_assoc]

/-- Claim C5: Bounce writes only into the scale channel; opacity, position,
rotation and anchor — schedules and static values alike — are left exactly
unchanged, whatever keyframes earlier pipeline steps placed there. -/
theorem bounce_channel_isolation (duration : Int) (t : Transform)
    (animation_size : Int × Int) :
    (BounceAnimation.apply duration t animation_size).opacity = t.opacity ∧
    (BounceAnimation.apply duration t animation_size).position = t.position ∧
    (BounceAnimation.apply duration t animation_size).rotation = t.rotation ∧
    (BounceAnimation.apply duration t animation_size).anchor_point = t.anchor_point ∧
    (BounceAnimation.apply duration t animation_size).scale.value = t.scale.value ∧
    (BounceAnimation.apply duration t animation_size).scale.keyframes
        = t.scale.keyframes ++ [(0, (90, 90)), (15, (100, 100)), (30, (90, 90)),
            (45, (100, 100)), (60, (90, 90)), (75, (100, 100)), (duration, (100, 100))] := by
  cases t
  refine ⟨?_, ?_, ?_, ?_, ?_, ?_⟩ <;>
    simp [BounceAnimation.apply, PointChannel.add_keyframe, List.append_assoc]

/-- Claim C6: on a document with no layers, create_basic_animation is a no-op
for every animation type — it returns the document unchanged and cannot
fail. -/
theorem basic_animation_noop_on_empty (a : Animation) (animation_type : String)
    (h : a.layers = []) : create_basic_animation a animation_type = a := by
  simp [create_basic_animation, h]

/-- Witness for claim C6 at a concrete empty document. -/
theorem basic_animation_noop_on_empty_check :
    sampleEmptyAnimation.layers = [] ∧
    create_basic_animation sampleEmptyAnimation "bounce" = sampleEmptyAnimation :=
  ⟨rfl, basic_animation_noop_on_empty sampleEmptyAnimation "bounce" rfl⟩

/-- Claim C7: the core conversion performs no numeric re-validation — at the
non-positive frame rate -1 (the demo error case) it still produces a full
output document, whose fr key carries -1, instead of failing with a
validation error. -/
theorem core_accepts_nonpositive_fps :
    lookupKey (svg_to_animated_lottie Animation.to_dict "<svg/>" sampleImported
        "fade_in" none (-1) none) "fr" = some (JVal.num (-1)) ∧
    lookupKey (svg_to_animated_lottie Animation.to_dict "<svg/>" sampleImported
        "fade_in" none (-1) none) "op" = some (JVal.num 60) ∧
    lookupKey (svg_to_animated_lottie Animation.to_dict "<svg/>" sampleImported
        "fade_in" none (-1) none) "w" = some (JVal.num 512) :=
  ⟨rfl, rfl, rfl⟩

/-- Claim C8: dimension resolution never consults the markup — at the viewBox
0 0 100 200 markup with no explicit size, the resolved target dimensions and
the w and h keys of the output document are the fixed default (512, 512), not
(100, 200). -/
theorem dimension_resolution_ignores_markup :
    resolve_target_dimensions viewBoxMarkup none = (512, 512) ∧
    ((512, 512) : Int × Int) ≠ (100, 200) ∧
    lookupKey (svg_to_animated_lottie Animation.to_dict viewBoxMarkup sampleImported
        "fade_in" none 30 none) "w" = some (JVal.num 512) ∧
    lookupKey (svg_to_animated_lottie Animation.to_dict viewBoxMarkup sampleImported
        "fade_in" none 30 none) "h" = some (JVal.num 512) :=
  ⟨rfl, by decide, rfl, rfl⟩

/-- Claim C9: create_complex_animation depends only on the recognized effect
keys (duration, fade_in, scale_pulse, rotation, shake); dropping every other
key of the effects map leaves the result — out-point and every transform
channel of every layer — identical, so unrecognized keys are silently ignored
and cannot fail the call. -/
theorem complex_ignores_unrecognized_keys (a : Animation)
    (effects : List (String × EffectVal)) :
    create_complex_animation a (some effects)
      = create_complex_animation a
          (some (effects.filter (fun e => recognizedComplexKeys.contains e.1))) := by
  have hdur : effects_get_duration
        (effects.filter (fun e => recognizedComplexKeys.contains e.1))
      = effects_get_duration effects := by
    unfold effects_get_duration
    rw [lookupKey_filter_keys (fun s => recognizedComplexKeys.contains s) "duration"
      (by decide) effects]
  have happ : applyComplexToTransform
        (effects.filter (fun e => recognizedComplexKeys.contains e.1))
      = applyComplexToTransform effects := by
    funext t
    unfold applyComplexToTransform lookup_sub_effect
    rw [lookupKey_filter_keys (fun s => recognizedComplexKeys.contains s) "fade_in"
          (by decide) effects,
        lookupKey_filter_keys (fun s => recognizedComplexKeys.contains s) "scale_pulse"
          (by decide) effects,
        lookupKey_filter_keys (fun s => recognizedComplexKeys.contains s) "rotation"
          (by decide) effects,
        lookupKey_filter_keys (fun s => recognizedComplexKeys.contains s) "shake"
          (by decide) effects]
  simp only [create_complex_animation, hdur, happ]

/-- Claim C10: create_basic_animation never fails for any animation-type
string — for a type outside fade_in, scale_up, rotate and bounce, on a
document with at least one layer, it writes no keyframe anywhere, still sets
the out-point to 60, and returns the document. -/
theorem basic_unknown_type_silent (a : Animation) (animation_type : String)
    (h1 : animation_type ∉ (["fade_in", "scale_up", "rotate", "bounce"] : List String))
    (h2 : a.layers ≠ []) :
    create_basic_animation a animation_type = { a with out_point := 60 } := by
  have hmem : ∀ s : String, animation_type = s →
      s ∈ (["fade_in", "scale_up", "rotate", "bounce"] : List String) →
      False := fun s he hm => h1 (he ▸ hm)
  have hf : (animation_type == "fade_in") = false :=
    beq_eq_false_iff_ne.mpr (fun he => hmem _ he (by decide))
  have hs : (animation_type == "scale_up") = false :=
    beq_eq_false_iff_ne.mpr (fun he => hmem _ he (by decide))
  have hr : (animation_type == "rotate") = false :=
    beq_eq_false_iff_ne.mpr (fun he => hmem _ he (by decide))
  have hb : (animation_type == "bounce") = false :=
    beq_eq_false_iff_ne.mpr (fun he => hmem _ he (by decide))
  have happ : ∀ t : Transform, applyBasicToTransform animation_type 60 t = t := by
    intro t
    simp [applyBasicToTransform, hf, hs, hr, hb]
  have hne : a.layers.isEmpty = false := by
    cases hl : a.layers with
    | nil => exact absurd hl h2
    | cons x xs => rfl
  have hmap : ∀ ls : List Layer,
      (ls.map (fun l =>
        match l.transform with
        | some t => { l with transform := some t }
        | none => l)) = ls := by
    intro ls
    induction ls with
    | nil => rfl
    | cons x xs ih =>
      cases x with
      | mk tr sh => cases tr <;> simp [ih]
  simp [create_basic_animation, hne, happ, hmap]

/-- Witness for claim C10 at a concrete one-layer document and the unknown
type spin. -/
theorem basic_unknown_type_silent_check :
    (("spin" : String) ∉ (["fade_in", "scale_up", "rotate", "bounce"] : List String)) ∧
    sampleOneLayerAnimation.layers ≠ [] ∧
    create_basic_animation sampleOneLayerAnimation "spin"
      = { sampleOneLayerAnimation with out_point := 60 } := by
  refine ⟨by decide, ?_, ?_⟩
  · exact List.cons_ne_nil _ _
  · exact basic_unknown_type_silent sampleOneLayerAnimation "spin" (by decide)
      (List.cons_ne_nil _ _)
